import Mathlib

/-
  Verification of `ampy/SelfAveragingLMMSEVAMPSolver.py`.

  The solver state and every per-variable update routine are embedded as
  executable Lean definitions over exact rationals (ℚ stands in for IEEE
  doubles; all divisions whose result matters are accompanied by proofs that
  the denominator is nonzero).  Vectors are lists of rationals, matrices are
  lists of rows; the numpy primitives used by the code (sign, heaviside,
  clip, mean) are reproduced entry for entry.

  The damping helper `utils.update_dumping` is imported by the solver but its
  source is not part of this repository, so `step` and `solve` take the
  damping function as an explicit parameter `damp`; a concrete convex
  combination modelled from the specification is provided separately for
  evaluation.
-/

namespace Ampy

/-- np.sign: 1 for positive, -1 for negative, 0 at zero. -/
def np_sign (x : ℚ) : ℚ :=
  if 0 < x then 1 else if x < 0 then -1 else 0

/-- np.heaviside x h: 0 for x < 0, h at x = 0, 1 for x > 0. -/
def np_heaviside (x h : ℚ) : ℚ :=
  if x < 0 then 0 else if x = 0 then h else 1

/-- np.clip x a_min a_max (positional): a_min when x < a_min, a_max when x > a_max. -/
def np_clip (x lo hi : ℚ) : ℚ :=
  if x < lo then lo else if hi < x then hi else x

/-- np.mean of a vector: sum divided by length. -/
def mean (v : List ℚ) : ℚ := v.sum / (v.length : ℚ)

/-- squared Euclidean norm, used to express the convergence test exactly. -/
def sumSq (v : List ℚ) : ℚ := (v.map (fun x => x * x)).sum

/-- dot product of two vectors. -/
def dotv (a b : List ℚ) : ℚ := (List.zipWith (fun x y => x * y) a b).sum

/-- matrix–vector product, rows stored as lists. -/
def matVec (m : List (List ℚ)) (v : List ℚ) : List ℚ :=
  m.map (fun row => dotv row v)

/-- elementwise product of two vectors (numpy `*`). -/
def hadamard (a b : List ℚ) : List ℚ := List.zipWith (fun x y => x * y) a b

/-- elementwise sum of two vectors (numpy `+`). -/
def vAdd (a b : List ℚ) : List ℚ := List.zipWith (fun x y => x + y) a b

/-- elementwise difference of two vectors (numpy `-`). -/
def vSub (a b : List ℚ) : List ℚ := List.zipWith (fun x y => x - y) a b

/-- Type of the damping collaborator: old value, new value, damping coefficient. -/
abbrev Damp := ℚ → ℚ → ℚ → ℚ

/-- Modelled from the spec: `utils.update_dumping` is imported from
`ampy.utils`, whose source is not under src/.  Per the specification it is a
convex combination of the old and the new value weighted by the damping
coefficient (the blend direction is an open question there); we weight the
old value by the coefficient. -/
def update_dumping (old nw c : ℚ) : ℚ := c * old + (1 - c) * nw

/-- elementwise application of the damping helper to a pair of vectors
(the solver passes whole vectors to it at line 84). -/
def update_dumping_vec (damp : Damp) (old nw : List ℚ) (c : ℚ) : List ℚ :=
  List.zipWith (fun o n => damp o n c) old nw

/-- The solver's mutable fields (constructor lines 22–60).  `l` is the
regularization strength, `dumping` the damping coefficient, `s2` the
squared zero-padded singular values, `V`/`VT` the right singular basis and
its transpose, `y_tilde` the pre-rotated observation. -/
structure VAMPState where
  l : ℚ
  dumping : ℚ
  s2 : List ℚ
  V : List (List ℚ)
  VT : List (List ℚ)
  y_tilde : List ℚ
  d : List ℚ
  x_hat_1 : List ℚ
  alpha_1 : ℚ
  eta_1 : ℚ
  gamma_2 : ℚ
  r_2 : List ℚ
  x_hat_2 : List ℚ
  alpha_2 : ℚ
  eta_2 : ℚ
  gamma_1 : ℚ
  r_1 : List ℚ
  deriving Repr, DecidableEq

/-- per-coordinate soft threshold: the product of the two elementwise
factors computed in `__update_x_hat_1` (lines 148–150). -/
def softThreshComponent (lam gam r : ℚ) : ℚ :=
  (r - lam / gam * np_sign r) * np_heaviside (|r| - lam / gam) (1/2)

/-- `__update_x_hat_1` (lines 141–150): v1 = r1 - l/gamma_1 * sign(r1),
v2 = heaviside(|r1| - l/gamma_1, 0.5), result v1 * v2 elementwise. -/
def update_x_hat_1 (st : VAMPState) : List ℚ :=
  let v1 := st.r_1.map (fun r => r - st.l / st.gamma_1 * np_sign r)
  let v2 := st.r_1.map (fun r => np_heaviside (|r| - st.l / st.gamma_1) (1/2))
  hadamard v1 v2

/-- `__update_alpha_1` (lines 152–160): mean of heaviside(|r1| - l/gamma_1, 0.5). -/
def update_alpha_1 (st : VAMPState) : ℚ :=
  mean (st.r_1.map (fun r => np_heaviside (|r| - st.l / st.gamma_1) (1/2)))

/-- `__update_eta_1` (line 169): gamma_1 / alpha_1. -/
def update_eta_1 (st : VAMPState) : ℚ := st.gamma_1 / st.alpha_1

/-- `__update_gamma_2` (line 178): eta_1 - gamma_1. -/
def update_gamma_2 (st : VAMPState) : ℚ := st.eta_1 - st.gamma_1

/-- `__update_r_2` (line 187): (eta_1 * x_hat_1 - gamma_1 * r_1) / gamma_2,
elementwise. -/
def update_r_2 (st : VAMPState) : List ℚ :=
  List.zipWith (fun x r => (st.eta_1 * x - st.gamma_1 * r) / st.gamma_2)
    st.x_hat_1 st.r_1

/-- `__update_d` (line 256): s2 / (s2 + gamma_2), elementwise. -/
def update_d (st : VAMPState) : List ℚ :=
  st.s2.map (fun t => t / (t + st.gamma_2))

/-- `__update_x_hat_2` (lines 189–211): v1 = r2, v2 = V (d * y_tilde),
v3 = V (d * (VT r2)); result v1 + v2 - v3. -/
def update_x_hat_2 (st : VAMPState) : List ℚ :=
  let v1 := st.r_2
  let v2 := matVec st.V (hadamard st.d st.y_tilde)
  let v3 := matVec st.V (hadamard st.d (matVec st.VT st.r_2))
  vSub (vAdd v1 v2) v3

/-- `__update_alpha_2` (line 220): 1.0 - d.mean(). -/
def update_alpha_2 (st : VAMPState) : ℚ := 1 - mean st.d

/-- `__update_eta_2` (line 229): gamma_2 / alpha_2. -/
def update_eta_2 (st : VAMPState) : ℚ := st.gamma_2 / st.alpha_2

/-- `__update_gamma_1` (line 238): eta_2 - gamma_2. -/
def update_gamma_1 (st : VAMPState) : ℚ := st.eta_2 - st.gamma_2

/-- `__update_r_1` (line 247): (eta_2 * x_hat_2 - gamma_2 * r_2) / gamma_1,
elementwise. -/
def update_r_1 (st : VAMPState) : List ℚ :=
  List.zipWith (fun x r => (st.eta_2 * x - st.gamma_2 * r) / st.gamma_1)
    st.x_hat_2 st.r_2

/-- One iteration of the loop body of `solve` (lines 78–109), with the field
assignments performed in source order. -/
def step (damp : Damp) (st : VAMPState) : VAMPState :=
  let st1 := { st with
    x_hat_1 := update_dumping_vec damp st.x_hat_1 (update_x_hat_1 st) st.dumping,
    alpha_1 := update_alpha_1 st }
  let st2 := { st1 with
    eta_1 := np_clip (damp st1.eta_1 (update_eta_1 st1) st1.dumping) (1/10^9) (10^9) }
  let st3 := { st2 with
    gamma_2 := np_clip (update_gamma_2 st2) (1/10^9) (10^9) }
  let st4 := { st3 with r_2 := update_r_2 st3 }
  let st5 := { st4 with d := update_d st4 }
  let st6 := { st5 with
    x_hat_2 := update_x_hat_2 st5,
    alpha_2 := update_alpha_2 st5 }
  let st7 := { st6 with eta_2 := update_eta_2 st6 }
  let st8 := { st7 with gamma_1 := np_clip (update_gamma_1 st7) (1/10^9) (10^9) }
  { st8 with r_1 := update_r_1 st8 }

/-- The convergence test of line 111–112, made exact over ℚ:
norm(old - cur)/sqrt N < tol  ⟺  0 < tol ∧ sumSq (old - cur) < tol² · N. -/
def convergedQ (dv : List ℚ) (n : Nat) (tol : ℚ) : Bool :=
  decide (0 < tol) && decide (sumSq dv < tol ^ 2 * (n : ℚ))

/-- The two terminal states of the convergence driver. -/
inductive SolveOutcome where
  | converged
  | exhausted
  deriving Repr, DecidableEq

/-- The loop of `solve` (lines 78–120): run the body, stop early on
convergence, otherwise exhaust the iteration budget. -/
def solveLoop (damp : Damp) (tol : ℚ) : Nat → VAMPState → VAMPState × SolveOutcome
  | 0, st => (st, SolveOutcome.exhausted)
  | k + 1, st =>
    let oldx := st.x_hat_1
    let st1 := step damp st
    if convergedQ (vSub oldx st1.x_hat_1) oldx.length tol then
      (st1, SolveOutcome.converged)
    else
      solveLoop damp tol k st1

/-- What `solve` produces: the final state, which terminal path was taken,
the returned estimate (line 139: `return self.x_hat_1`), and the console
diagnostics it prints. -/
structure SolveResult where
  state : VAMPState
  outcome : SolveOutcome
  estimate : List ℚ
  log : List String
  deriving Repr, DecidableEq

/-- `solve` (lines 62–139).  On convergence the diagnostics of lines 114–119
are printed only when `message` is set; on exhaustion the diagnostics of
lines 130–137 are printed unconditionally.  The log abstracts each printed
block by its leading line. -/
def solve (damp : Damp) (st : VAMPState) (max_iteration : Nat) (tol : ℚ)
    (message : Bool) : SolveResult :=
  let p := solveLoop damp tol max_iteration st
  let log : List String :=
    match p.2 with
    | SolveOutcome.converged => if message then ["requirement satisfied"] else []
    | SolveOutcome.exhausted => ["does not converged."]
  { state := p.1, outcome := p.2, estimate := p.1.x_hat_1, log := log }

/-- Observable events of the constructor `__init__` (lines 13–44), in the
order the straight-line code produces them: the SVD of line 31 always runs
first; the matmul `self.U.T @ self.y` of line 44 is the first place the
length of `y` is consulted, and it raises a dimension-mismatch error exactly
when len(y) ≠ M, otherwise initialization completes. -/
inductive InitEvent where
  | svdComputed
  | dimError
  | stateReady
  deriving Repr, DecidableEq

/-- Event trace of the constructor as a function of the row count M of A and
of the length of y (no other input affects which events occur). -/
def initEvents (m ylen : Nat) : List InitEvent :=
  [InitEvent.svdComputed] ++
    (if ylen = m then [InitEvent.stateReady] else [InitEvent.dimError])

/-- The diagonal entries the constructor writes into S_inv (lines 39–42):
for every computed singular value it evaluates `1.0 / s[i]` unconditionally.
In IEEE arithmetic `1.0 / 0.0` is inf, not a rational; an entry is recorded
as `none` when that division divides by zero and as `some (1/v)` otherwise. -/
def S_inv_diagEntries (s : List ℚ) : List (Option ℚ) :=
  s.map (fun v => if v = 0 then none else some (1 / v))

/-- Whether the constructor's loop of lines 40–42 performs a division by a
zero singular value. -/
def S_inv_hasZeroDivision (s : List ℚ) : Bool :=
  s.any (fun v => decide (v = 0))

/-- The spec's wording for alpha_1: the mean over coordinates of the 0/1
indicator of |r1_i| > l/gamma_1 (the empirical support fraction).  Stated
separately from `update_alpha_1` so the two can be compared. -/
def alpha_1_spec (st : VAMPState) : ℚ :=
  mean (st.r_1.map (fun r => if st.l / st.gamma_1 < |r| then (1 : ℚ) else 0))

/-- A generic state with empty vectors and the constructor's scalar
initializations (alpha, eta, gamma all 1.0, lines 50–59), used to
instantiate universally quantified theorems. -/
def st0 : VAMPState :=
  { l := 0, dumping := 0, s2 := [], V := [], VT := [], y_tilde := [], d := [],
    x_hat_1 := [], alpha_1 := 1, eta_1 := 1, gamma_2 := 1, r_2 := [],
    x_hat_2 := [], alpha_2 := 1, eta_2 := 1, gamma_1 := 1, r_1 := [] }

/-- Constructor state for A = [[10^5]] (so s2 = [10^10], U = V = [1]),
y = [0], regularization 0, damping coefficient 1/2, with the random draws
taken as r_1 = x_hat_1 = [2] and d = r_2 = x_hat_2 = [0]; every scalar is
the constructor's 1.0.  The old and freshly computed x_hat_1 and eta_1
coincide here, so the state after one iteration does not depend on the
damping blend direction. -/
def stC2 : VAMPState :=
  { l := 0, dumping := 1/2, s2 := [10^10], V := [[1]], VT := [[1]],
    y_tilde := [0], d := [0], x_hat_1 := [2], alpha_1 := 1, eta_1 := 1,
    gamma_2 := 1, r_2 := [0], x_hat_2 := [0], alpha_2 := 1, eta_2 := 1,
    gamma_1 := 1, r_1 := [2] }

/-- State with a single coordinate exactly on the soft-threshold boundary:
|r_1| = 1 = l / gamma_1. -/
def st6c : VAMPState := { st0 with l := 1, r_1 := [1] }

/-- State with a single coordinate strictly above the threshold. -/
def st6w : VAMPState := { st0 with l := 1, r_1 := [2] }

/-- State with a single nonnegative squared singular value. -/
def st10 : VAMPState := { st0 with s2 := [1] }

end Ampy

namespace Ampy

/-- bounds of np.clip when the clamp interval is nonempty. -/
theorem np_clip_bounds (x lo hi : ℚ) (h : lo ≤ hi) :
    lo ≤ np_clip x lo hi ∧ np_clip x lo hi ≤ hi := by
  unfold np_clip
  split_ifs with h1 h2
  · exact ⟨le_refl lo, h⟩
  · exact ⟨h, le_refl hi⟩
  · exact ⟨le_of_not_lt h1, le_of_not_lt h2⟩

theorem step_x_hat_1_eq (damp : Damp) (st : VAMPState) :
    (step damp st).x_hat_1 =
      update_dumping_vec damp st.x_hat_1 (update_x_hat_1 st) st.dumping := rfl

theorem step_eta_1_eq (damp : Damp) (st : VAMPState) :
    (step damp st).eta_1 =
      np_clip (damp st.eta_1 (st.gamma_1 / update_alpha_1 st) st.dumping)
        (1/10^9) (10^9) := rfl

theorem step_gamma_2_eq (damp : Damp) (st : VAMPState) :
    (step damp st).gamma_2 =
      np_clip ((step damp st).eta_1 - st.gamma_1) (1/10^9) (10^9) := rfl

theorem step_r_2_eq (damp : Damp) (st : VAMPState) :
    (step damp st).r_2 =
      List.zipWith
        (fun x r => ((step damp st).eta_1 * x - st.gamma_1 * r) / (step damp st).gamma_2)
        (step damp st).x_hat_1 st.r_1 := rfl

theorem step_d_eq (damp : Damp) (st : VAMPState) :
    (step damp st).d = st.s2.map (fun t => t / (t + (step damp st).gamma_2)) := rfl

theorem step_alpha_2_eq (damp : Damp) (st : VAMPState) :
    (step damp st).alpha_2 = 1 - mean (step damp st).d := rfl

theorem step_eta_2_eq (damp : Damp) (st : VAMPState) :
    (step damp st).eta_2 = (step damp st).gamma_2 / (step damp st).alpha_2 := rfl

theorem step_gamma_1_eq (damp : Damp) (st : VAMPState) :
    (step damp st).gamma_1 =
      np_clip ((step damp st).eta_2 - (step damp st).gamma_2) (1/10^9) (10^9) := rfl

end Ampy

namespace Ampy

/-- elementwise product of two maps over the same list is the map of the
pointwise product. -/
theorem hadamard_map_map (f g : ℚ → ℚ) (v : List ℚ) :
    hadamard (v.map f) (v.map g) = v.map (fun x => f x * g x) := by
  induction v with
  | nil => rfl
  | cons a t ih =>
    simp only [List.map_cons, hadamard, List.zipWith_cons_cons] at ih ⊢
    rw [ih]

/-- a nonempty list of rationals each below 1 sums to less than its length. -/
theorem sum_lt_length (v : List ℚ) (hne : v ≠ []) (hlt : ∀ u ∈ v, u < 1) :
    v.sum < (v.length : ℚ) := by
  induction v with
  | nil => exact absurd rfl hne
  | cons a t ih =>
    rcases eq_or_ne t [] with h | h
    · subst h
      simpa using hlt a (List.mem_cons_self a [])
    · have h1 : a < 1 := hlt a (List.mem_cons_self a t)
      have h2 : t.sum < (t.length : ℚ) :=
        ih h (fun u hu => hlt u (List.mem_cons_of_mem a hu))
      simp only [List.sum_cons, List.length_cons]
      push_cast
      linarith

/-- the mean of a nonempty list of rationals each below 1 is below 1. -/
theorem mean_lt_one (v : List ℚ) (hne : v ≠ []) (hlt : ∀ u ∈ v, u < 1) :
    mean v < 1 := by
  have hpos : (0 : ℚ) < (v.length : ℚ) := by
    have := List.length_pos.mpr hne
    exact_mod_cast this
  rw [mean, div_lt_one hpos]
  exact sum_lt_length v hne hlt

/-- Claim C1: in every iteration the LMMSE module computes the shrinkage
vector as d_i = s_i^2 / (s_i^2 + gamma_2) elementwise (a vector of the same
length as s2), computes x_hat_2 = r_2 + V (d * y_tilde) - V (d * (VT r_2)),
and assigns x_hat_2, alpha_2 = 1 - mean d and eta_2 = gamma_2 / alpha_2
directly, with no damping; only module 1's x_hat_1 and eta_1 pass through
the damping helper. -/
theorem C1_lmmse_no_damping (damp : Damp) (st : VAMPState) :
    (step damp st).d = st.s2.map (fun t => t / (t + (step damp st).gamma_2)) ∧
    ((step damp st).d).length = st.s2.length ∧
    (step damp st).x_hat_2 =
      vSub (vAdd (step damp st).r_2 (matVec st.V (hadamard (step damp st).d st.y_tilde)))
        (matVec st.V (hadamard (step damp st).d (matVec st.VT (step damp st).r_2))) ∧
    (step damp st).alpha_2 = 1 - mean (step damp st).d ∧
    (step damp st).eta_2 = (step damp st).gamma_2 / (step damp st).alpha_2 ∧
    (step damp st).x_hat_1 =
      update_dumping_vec damp st.x_hat_1 (update_x_hat_1 st) st.dumping ∧
    (step damp st).eta_1 =
      np_clip (damp st.eta_1 (st.gamma_1 / update_alpha_1 st) st.dumping)
        (1/10^9) (10^9) :=
  ⟨rfl, by rw [step_d_eq]; simp, rfl, rfl, rfl, rfl, rfl⟩

/-- Claim C7: gamma_2 is computed as eta_1 - gamma_1 and clamped to
[1e-9, 1e9] before r_2 is computed, so the division in
r_2 = (eta_1 * x_hat_1 - gamma_1 * r_1) / gamma_2 uses the clamped gamma_2,
which is at least 1e-9 and in particular nonzero. -/
theorem C7_r2_uses_clamped_gamma2 (damp : Damp) (st : VAMPState) :
    (step damp st).gamma_2 =
      np_clip ((step damp st).eta_1 - st.gamma_1) (1/10^9) (10^9) ∧
    (step damp st).r_2 =
      List.zipWith
        (fun x r => ((step damp st).eta_1 * x - st.gamma_1 * r) / (step damp st).gamma_2)
        (step damp st).x_hat_1 st.r_1 ∧
    1/10^9 ≤ (step damp st).gamma_2 ∧ (step damp st).gamma_2 ≠ 0 := by
  have hb := np_clip_bounds ((step damp st).eta_1 - st.gamma_1) (1/10^9) (10^9)
    (by norm_num)
  rw [← step_gamma_2_eq damp st] at hb
  exact ⟨step_gamma_2_eq damp st, step_r_2_eq damp st, hb.1,
    (lt_of_lt_of_le (by norm_num) hb.1).ne'⟩

/-- Claim C2 (counterexample): starting `solve` from the constructor state
for A = [[10^5]], y = [0], lambda = 0, delta = 1/2 (a state reachable with
those inputs), one iteration leaves eta_2 strictly above 1e9: eta_2 is
assigned gamma_2 / alpha_2 with no clamp, and here it equals
10^10 + 10^-9. -/
theorem C2_eta2_exceeds_bound :
    (10:ℚ)^9 < (step update_dumping stC2).eta_2 := by
  norm_num [step, stC2, update_dumping, update_dumping_vec, update_x_hat_1,
    update_alpha_1, update_eta_1, update_gamma_2, update_r_2, update_d,
    update_x_hat_2, update_alpha_2, update_eta_2, update_gamma_1, update_r_1,
    np_clip, np_sign, np_heaviside, mean, hadamard, matVec, dotv, vAdd, vSub]

/-- Claim C2 (amended): after every iteration the clamped scalars gamma_1,
gamma_2 and eta_1 lie within [1e-9, 1e9]; eta_2 is assigned without a clamp
and is not so bounded. -/
theorem C2_gamma_eta1_clamped (damp : Damp) (st : VAMPState) :
    (1/10^9 ≤ (step damp st).gamma_1 ∧ (step damp st).gamma_1 ≤ 10^9) ∧
    (1/10^9 ≤ (step damp st).gamma_2 ∧ (step damp st).gamma_2 ≤ 10^9) ∧
    (1/10^9 ≤ (step damp st).eta_1 ∧ (step damp st).eta_1 ≤ 10^9) := by
  refine ⟨?_, ?_, ?_⟩
  · rw [step_gamma_1_eq]
    exact np_clip_bounds _ _ _ (by norm_num)
  · rw [step_gamma_2_eq]
    exact np_clip_bounds _ _ _ (by norm_num)
  · rw [step_eta_1_eq]
    exact np_clip_bounds _ _ _ (by norm_num)

end Ampy

namespace Ampy

/-- Claim C3 (counterexample): for A with 2 rows and y of length 3 the
constructor does hit a dimension-mismatch error, but the error is not
raised before the SVD: in the constructor's event trace the SVD of line 31
precedes the failing matmul of line 44. -/
theorem C3_error_not_before_svd :
    InitEvent.dimError ∈ initEvents 2 3 ∧
    ¬ (initEvents 2 3).indexOf InitEvent.dimError <
        (initEvents 2 3).indexOf InitEvent.svdComputed := by decide

/-- Claim C3 (amended): for every pair of mismatched dimensions the
constructor fails with a dimension-mismatch error, but only after the SVD
factorization has been performed (the SVD of line 31 runs before the matmul
of line 44, which is where the mismatch first raises). -/
theorem C3_dim_error_after_svd (m ylen : Nat) (h : ylen ≠ m) :
    initEvents m ylen = [InitEvent.svdComputed, InitEvent.dimError] := by
  simp [initEvents, h]

theorem C3_dim_error_after_svd_witness :
    (3 : Nat) ≠ 2 ∧ initEvents 2 3 = [InitEvent.svdComputed, InitEvent.dimError] :=
  ⟨by decide, C3_dim_error_after_svd 2 3 (by decide)⟩

/-- Claim C4 (code bug): on a rank-deficient input — singular value list
containing a zero, e.g. from A = [[0.0]] — the constructor's loop performs
the unguarded division 1.0 / 0.0 (line 42); the corresponding S_inv entry is
not the claimed 0 but the result of a division by zero (inf in IEEE
arithmetic, recorded here as `none`). -/
theorem C4_unguarded_zero_division :
    S_inv_hasZeroDivision [0] = true ∧ S_inv_diagEntries [0] = [none] := by
  constructor
  · norm_num [S_inv_hasZeroDivision]
  · norm_num [S_inv_diagEntries]

/-- Claim C5: the denoiser output is the per-coordinate soft threshold, and
for every coordinate with |r| ≤ lambda / gamma_1 (gamma_1 > 0) the output
component is exactly 0 — including the boundary |r| = lambda / gamma_1,
where the heaviside factor takes the value 1/2 but the first factor
vanishes. -/
theorem C5_soft_threshold_zero (st : VAMPState) :
    update_x_hat_1 st = st.r_1.map (softThreshComponent st.l st.gamma_1) ∧
    (∀ lam gam r : ℚ, 0 < gam → |r| ≤ lam / gam →
      softThreshComponent lam gam r = 0) ∧
    (∀ lam gam r : ℚ, |r| = lam / gam →
      np_heaviside (|r| - lam / gam) (1/2) = 1/2) := by
  refine ⟨?_, ?_, ?_⟩
  · unfold update_x_hat_1
    exact hadamard_map_map _ _ _
  · intro lam gam r hg h
    rcases lt_or_eq_of_le h with hlt | heq
    · unfold softThreshComponent np_heaviside
      rw [if_pos (by linarith)]
      ring
    · have h2 : lam / gam = |r| := heq.symm
      unfold softThreshComponent np_heaviside
      rw [if_neg (by linarith), if_pos (by linarith)]
      unfold np_sign
      rcases lt_trichotomy r 0 with hr | hr | hr
      · rw [if_neg (by linarith), if_pos hr]
        have h3 : lam / gam = -r := by rw [h2, abs_of_neg hr]
        rw [h3]; ring
      · subst hr
        rw [if_neg (lt_irrefl 0), if_neg (lt_irrefl 0)]
        ring
      · rw [if_pos hr]
        have h3 : lam / gam = r := by rw [h2, abs_of_pos hr]
        rw [h3]; ring
  · intro lam gam r heq
    unfold np_heaviside
    rw [if_neg (by linarith), if_pos (by linarith)]

theorem C5_soft_threshold_zero_witness :
    (0:ℚ) < 1 ∧ |(1:ℚ)| ≤ 1 / 1 ∧ softThreshComponent 1 1 1 = 0 :=
  ⟨by norm_num, by norm_num,
    (C5_soft_threshold_zero st0).2.1 1 1 1 (by norm_num) (by norm_num)⟩

/-- Claim C6 (counterexample): at the boundary coordinate r_1 = [1] with
lambda = gamma_1 = 1 the implementation's alpha_1 is 1/2 (the heaviside
midpoint), while the claimed mean of the 0/1 indicator of
|r_1_i| > lambda / gamma_1 is 0 — so alpha_1 is not that indicator mean and
a coordinate can contribute 1/2. -/
theorem C6_boundary_contributes_half :
    update_alpha_1 st6c ≠ alpha_1_spec st6c ∧
    update_alpha_1 st6c = 1/2 ∧ alpha_1_spec st6c = 0 := by
  norm_num [st6c, st0, update_alpha_1, alpha_1_spec, np_heaviside, mean]

/-- Claim C6 (amended): alpha_1 is the mean over coordinates of
heaviside(|r_1_i| - lambda / gamma_1, 0.5); whenever no coordinate sits
exactly on the threshold |r_1_i| = lambda / gamma_1 this equals the mean of
the 0/1 indicator of |r_1_i| > lambda / gamma_1 (the empirical support
fraction), while boundary coordinates contribute 1/2 instead. -/
theorem C6_alpha1_off_boundary (st : VAMPState)
    (h : ∀ r ∈ st.r_1, |r| ≠ st.l / st.gamma_1) :
    update_alpha_1 st = alpha_1_spec st := by
  unfold update_alpha_1 alpha_1_spec
  congr 1
  apply List.map_congr_left
  intro r hr
  have hne := h r hr
  unfold np_heaviside
  by_cases h1 : |r| - st.l / st.gamma_1 < 0
  · rw [if_pos h1, if_neg (by intro hc; linarith)]
  · by_cases h2 : |r| - st.l / st.gamma_1 = 0
    · exact absurd (by linarith) hne
    · have h3 : 0 < |r| - st.l / st.gamma_1 :=
        lt_of_le_of_ne (not_lt.mp h1) (Ne.symm h2)
      rw [if_neg h1, if_neg h2, if_pos (by linarith)]

theorem C6_alpha1_off_boundary_witness :
    (∀ r ∈ st6w.r_1, |r| ≠ st6w.l / st6w.gamma_1) ∧
    update_alpha_1 st6w = alpha_1_spec st6w := by
  have h : ∀ r ∈ st6w.r_1, |r| ≠ st6w.l / st6w.gamma_1 := by
    intro r hr
    simp only [st6w, st0, List.mem_singleton] at hr
    subst hr
    norm_num [st6w, st0]
  exact ⟨h, C6_alpha1_off_boundary st6w h⟩

/-- Claim C8: calling solve with max_iteration = 0 never runs the loop
body: it returns the initial x_hat_1 unchanged, leaves the whole state
untouched, takes the Exhausted path, and prints the non-convergence
diagnostics (the model is a total function, so no exception is raised). -/
theorem C8_zero_iterations (damp : Damp) (st : VAMPState) (tol : ℚ)
    (message : Bool) :
    (solve damp st 0 tol message).estimate = st.x_hat_1 ∧
    (solve damp st 0 tol message).outcome = SolveOutcome.exhausted ∧
    (solve damp st 0 tol message).state = st ∧
    (solve damp st 0 tol message).log = ["does not converged."] :=
  ⟨rfl, rfl, rfl, rfl⟩

/-- Claim C9: two runs of solve from the same state with the same
max_iteration and tolerance that differ only in the `message` flag return
the same estimate, final state and outcome — `message` can only change the
log. -/
theorem C9_message_only_logging (damp : Damp) (st : VAMPState) (n : Nat)
    (tol : ℚ) :
    (solve damp st n tol true).estimate = (solve damp st n tol false).estimate ∧
    (solve damp st n tol true).state = (solve damp st n tol false).state ∧
    (solve damp st n tol true).outcome = (solve damp st n tol false).outcome :=
  ⟨rfl, rfl, rfl⟩

/-- Claim C10: because gamma_2 is clamped to at least 1e-9 before the LMMSE
step, every shrinkage entry d_i = s_i^2/(s_i^2 + gamma_2) lies in [0, 1)
for nonnegative s^2, hence alpha_2 = 1 - mean d is strictly positive and
eta_2 = gamma_2 / alpha_2 is a division by a nonzero number with a strictly
positive result. -/
theorem C10_shrinkage_bounds (damp : Damp) (st : VAMPState)
    (h1 : st.s2 ≠ []) (h2 : ∀ t ∈ st.s2, 0 ≤ t) :
    (∀ u ∈ (step damp st).d, 0 ≤ u ∧ u < 1) ∧
    0 < (step damp st).alpha_2 ∧ 0 < (step damp st).eta_2 := by
  have hg : 0 < (step damp st).gamma_2 := by
    have hb := np_clip_bounds ((step damp st).eta_1 - st.gamma_1) (1/10^9) (10^9)
      (by norm_num)
    rw [← step_gamma_2_eq damp st] at hb
    linarith [hb.1]
  have hd : ∀ u ∈ (step damp st).d, 0 ≤ u ∧ u < 1 := by
    intro u hu
    rw [step_d_eq] at hu
    rcases List.mem_map.mp hu with ⟨t, ht, rfl⟩
    have h0 : 0 ≤ t := h2 t ht
    have hden : 0 < t + (step damp st).gamma_2 := by linarith
    exact ⟨div_nonneg h0 hden.le, (div_lt_one hden).mpr (by linarith)⟩
  have hdne : (step damp st).d ≠ [] := by
    rw [step_d_eq]
    intro hc
    exact h1 (List.map_eq_nil_iff.mp hc)
  have hm : mean (step damp st).d < 1 :=
    mean_lt_one _ hdne (fun u hu => (hd u hu).2)
  have ha : 0 < (step damp st).alpha_2 := by
    rw [step_alpha_2_eq]; linarith
  exact ⟨hd, ha, by rw [step_eta_2_eq]; exact div_pos hg ha⟩

theorem C10_shrinkage_bounds_witness :
    st10.s2 ≠ [] ∧ (∀ t ∈ st10.s2, 0 ≤ t) ∧
    0 < (step update_dumping st10).eta_2 := by
  have h1 : st10.s2 ≠ [] := by simp [st10, st0]
  have h2 : ∀ t ∈ st10.s2, 0 ≤ t := by
    intro t ht
    simp only [st10, st0, List.mem_singleton] at ht
    subst ht
    norm_num
  exact ⟨h1, h2, (C10_shrinkage_bounds update_dumping st10 h1 h2).2.2⟩

end Ampy
